import Mathlib

/-!
Shallow embedding of the wgpu tutorial repository (src/lib.rs, the
textured-polygon variant; src/challenge-2.rs, the colored-triangle variant;
src/texture.rs).

Modelling conventions:
* `f64`/`f32` values (cursor positions, color channels, vertex data) are
  modelled as exact rationals `ℚ`; the code performs no float computation
  other than the two divisions in `State::input`, which are modelled as exact
  division.
* `u32` dimensions are modelled as `Nat` (no arithmetic is performed on them
  beyond comparison with 0).
* Opaque GPU/window handles (`wgpu::Instance`, `wgpu::Device`, buffers, bind
  groups, ...) are modelled as `Nat` identifiers: the code never inspects
  them, it only stores and passes them.
* Methods taking `&mut self` are modelled as functions `State → ... → State × ...`
  returning the updated state; external effects (surface reconfiguration,
  the command stream of a render pass) are returned explicitly as a `Bool`
  flag or a `List RenderStep` trace.
-/

namespace WgpuTut

/-- `wgpu::Color`: four `f64` channels, modelled as rationals. -/
structure Color where
  r : ℚ
  g : ℚ
  b : ℚ
  a : ℚ
deriving DecidableEq, Repr

/-- `wgpu::Color::BLACK` (r = g = b = 0, a = 1). -/
def Color.BLACK : Color := { r := 0, g := 0, b := 0, a := 1 }

/-- `winit::dpi::PhysicalSize<u32>`. -/
structure PhysicalSize where
  width : Nat
  height : Nat
deriving DecidableEq, Repr

/-- `winit::dpi::PhysicalPosition<f64>` (the payload of `CursorMoved`). -/
structure PhysicalPosition where
  x : ℚ
  y : ℚ
deriving DecidableEq, Repr

/-- `winit::event::ElementState`. -/
inductive ElementState where
  | Pressed
  | Released
deriving DecidableEq, Repr

/-- `winit::event::VirtualKeyCode`, restricted to the keycodes the program
matches on; every other keycode is `OtherKey`. -/
inductive VirtualKeyCode where
  | Escape
  | Space
  | OtherKey
deriving DecidableEq, Repr

/-- `winit::event::KeyboardInput` (the fields the program reads). -/
structure KeyboardInput where
  state : ElementState
  virtual_keycode : Option VirtualKeyCode
deriving DecidableEq, Repr

/-- `winit::event::WindowEvent`, restricted to the variants the program
matches on; every other event is `OtherEvent`. -/
inductive WindowEvent where
  | CloseRequested
  | KeyboardInput (input : KeyboardInput)
  | Resized (physical_size : PhysicalSize)
  | ScaleFactorChanged (new_inner_size : PhysicalSize)
  | CursorMoved (position : PhysicalPosition)
  | OtherEvent
deriving DecidableEq, Repr

/-- `winit::event_loop::ControlFlow` (the variants relevant to the loop). -/
inductive ControlFlow where
  | Poll
  | Wait
  | Exit
deriving DecidableEq, Repr

/-- `wgpu::SurfaceError`. -/
inductive SurfaceError where
  | Timeout
  | Outdated
  | Lost
  | OutOfMemory
deriving DecidableEq, Repr

/-- `wgpu::IndexFormat`. -/
inductive IndexFormat where
  | Uint16
  | Uint32
deriving DecidableEq, Repr

/-- `wgpu::SurfaceConfiguration` as built in `State::new`: `width`/`height`
are the `u32` dimensions the program updates on resize; the remaining fields
(usage, format, present mode, alpha mode) are opaque codes the program never
changes after construction. -/
structure SurfaceConfiguration where
  usage : Nat
  format : Nat
  width : Nat
  height : Nat
  present_mode : Nat
  alpha_mode : Nat
deriving DecidableEq, Repr

/-- A vertex of `lib.rs` (`struct Vertex`): a 3-component position and
2-component texture coordinates, `f32` modelled as `ℚ`. -/
structure Vertex where
  position : ℚ × ℚ × ℚ
  tex_coords : ℚ × ℚ
deriving DecidableEq, Repr

/-- The static `VERTICES` array of lib.rs (lines 128-134): five vertices. -/
def VERTICES : List Vertex := [
  { position := (-0.0868241, 0.49240386, 0.0), tex_coords := (0.4131759, 0.00759614) },
  { position := (-0.49513406, 0.06958647, 0.0), tex_coords := (0.0048659444, 0.43041354) },
  { position := (-0.21918549, -0.44939706, 0.0), tex_coords := (0.28081453, 0.949397) },
  { position := (0.35966998, -0.3473291, 0.0), tex_coords := (0.85967, 0.84732914) },
  { position := (0.44147372, 0.2347359, 0.0), tex_coords := (0.9414737, 0.2652641) }]

/-- The static `INDICES` array of lib.rs (lines 137-141): nine `u16` indices,
three triangles over the five vertices. -/
def INDICES : List Nat := [0, 1, 4, 1, 2, 4, 2, 3, 4]

/-- The `num_indices` value `State::new` stores (lib.rs line 376):
`INDICES.len() as u32`. -/
def new_num_indices : Nat := INDICES.length

/-- One step of the effect trace a frame emits: surface-texture acquisition,
view/encoder creation, the render-pass commands, queue submission and
presentation, in the order the code issues them. -/
inductive RenderStep where
  | acquireSurfaceTexture
  | createView
  | createCommandEncoder
  | beginRenderPass (clear : Color) (store : Bool)
  | setPipeline (pipeline : Nat)
  | setBindGroup (index : Nat) (group : Nat)
  | setVertexBuffer (slot : Nat) (buffer : Nat)
  | setIndexBuffer (buffer : Nat) (format : IndexFormat)
  | drawIndexed (idxStart idxEnd baseVertex instStart instEnd : Nat)
  | draw (vtxStart vtxEnd instStart instEnd : Nat)
  | submit
  | present
deriving DecidableEq, Repr

/-- Whether a trace step is a draw call (`draw` or `draw_indexed`). -/
def RenderStep.isDrawCall : RenderStep → Bool
  | .drawIndexed _ _ _ _ _ => true
  | .draw _ _ _ _ => true
  | _ => false

/-- The `State` struct of lib.rs (lines 102-119), the textured-polygon
variant. `inst` models the field named `instance` (a Lean keyword). Handle
fields are opaque identifiers. -/
structure State where
  inst : Nat
  adapter : Nat
  surface : Nat
  device : Nat
  queue : Nat
  config : SurfaceConfiguration
  size : PhysicalSize
  window : Nat
  clear_color : Color
  render_pipeline : Nat
  vertex_buffer : Nat
  index_buffer : Nat
  num_indices : Nat
  diffuse_bind_group : Nat
  diffuse_texture : Nat
deriving DecidableEq, Repr

/-- `State::resize` of lib.rs (lines 402-409): when both dimensions are
positive it stores the new size, updates `config.width`/`config.height` and
calls `surface.configure`; otherwise it does nothing. The returned `Bool` is
true exactly when `surface.configure` was called. -/
def State.resize (s : State) (new_size : PhysicalSize) : State × Bool :=
  if new_size.width > 0 && new_size.height > 0 then
    ({ s with
        size := new_size,
        config := { s.config with width := new_size.width, height := new_size.height } },
     true)
  else
    (s, false)

/-- `State::input` of lib.rs (lines 411-424): on `CursorMoved` it overwrites
`clear_color` with `(x / width, y / height, 1.0, 1.0)` and returns true;
every other event returns false and changes nothing. -/
def State.input (s : State) (event : WindowEvent) : State × Bool :=
  match event with
  | .CursorMoved position =>
      ({ s with clear_color :=
          { r := position.x / (s.size.width : ℚ),
            g := position.y / (s.size.height : ℚ),
            b := 1,
            a := 1 } },
       true)
  | _ => (s, false)

/-- `State::update` of lib.rs (lines 426-428): an empty body. -/
def State.update (s : State) : State := s

/-- `State::render` of lib.rs (lines 430-493). The result of
`surface.get_current_texture()` is passed in as `acquire` (the environment's
choice); `?` propagates its error. On success the method creates the view and
encoder, records one render pass — clear to `clear_color` with `store: true`,
set the pipeline, bind group 0, vertex-buffer slot 0 and the `Uint16` index
buffer, then `draw_indexed(0..num_indices, 0, 0..1)` — submits, presents and
returns `Ok(())`. The state itself is never written. -/
def State.render (s : State) (acquire : Except SurfaceError Nat) :
    State × List RenderStep × Except SurfaceError Unit :=
  match acquire with
  | .error e => (s, [RenderStep.acquireSurfaceTexture], .error e)
  | .ok _ =>
      (s,
       [RenderStep.acquireSurfaceTexture,
        RenderStep.createView,
        RenderStep.createCommandEncoder,
        RenderStep.beginRenderPass s.clear_color true,
        RenderStep.setPipeline s.render_pipeline,
        RenderStep.setBindGroup 0 s.diffuse_bind_group,
        RenderStep.setVertexBuffer 0 s.vertex_buffer,
        RenderStep.setIndexBuffer s.index_buffer IndexFormat.Uint16,
        RenderStep.drawIndexed 0 s.num_indices 0 0 1,
        RenderStep.submit,
        RenderStep.present],
       .ok ())

/-- The `WindowEvent` arm of the event loop in `run` (lib.rs lines 55-78):
first `state.input(event)`; when the event is not consumed, `CloseRequested`
or a pressed `Escape` sets `ControlFlow::Exit`, and `Resized` /
`ScaleFactorChanged` call `state.resize`. The `Bool` is true exactly when
`surface.configure` was called. -/
def handleWindowEvent (s : State) (cf : ControlFlow) (event : WindowEvent) :
    State × ControlFlow × Bool :=
  let consumed := s.input event
  if consumed.2 then
    (consumed.1, cf, false)
  else
    match event with
    | .CloseRequested => (consumed.1, ControlFlow.Exit, false)
    | .KeyboardInput { state := .Pressed, virtual_keycode := some .Escape } =>
        (consumed.1, ControlFlow.Exit, false)
    | .Resized physical_size =>
        let r := consumed.1.resize physical_size
        (r.1, cf, r.2)
    | .ScaleFactorChanged new_inner_size =>
        let r := consumed.1.resize new_inner_size
        (r.1, cf, r.2)
    | _ => (consumed.1, cf, false)

/-- The `Err` branches of the `RedrawRequested` arm of `run` (lib.rs lines
82-90): `Lost` calls `state.resize(state.size)`, `OutOfMemory` sets
`ControlFlow::Exit`, every other error is only logged (`eprintln!`). The
`Bool` is true exactly when `surface.configure` was called. -/
def handleRenderError (s : State) (cf : ControlFlow) (e : SurfaceError) :
    State × ControlFlow × Bool :=
  match e with
  | .Lost =>
      let r := s.resize s.size
      (r.1, cf, r.2)
  | .OutOfMemory => (s, ControlFlow.Exit, false)
  | _ => (s, cf, false)

end WgpuTut

namespace WgpuTut

/-- The `Texture` struct of texture.rs (lines 4-8): a texture, a view and a
sampler, opaque handles. -/
structure Texture where
  texture : Nat
  view : Nat
  sampler : Nat
deriving DecidableEq, Repr

/-- `Texture::from_bytes` of texture.rs (lines 11-13), exactly as written in
the source: a function with no parameters and an empty body, so its result
type is the unit type and it constructs no `Texture`. (The call site in
`State::new`, lib.rs line 219, nevertheless passes it a device, a queue, the
embedded PNG bytes and a label and unwraps the result into a
`texture::Texture` — an arity and type mismatch visible in this embedding:
no value of type `Texture` can be produced from `fromBytes`.) -/
def Texture.fromBytes : Unit := ()

end WgpuTut

namespace WgpuTutC2

open WgpuTut in
/-- The `State` struct of challenge-2.rs (lines 99-110), the colored-triangle
variant. The struct declaration omits `clear_color`, but `State::new`
initializes it and `input`/`render` read and write it (challenge-2.rs lines
289, 311, 374), so the intended state carries it; it is included here.
`inst` models the field named `instance` (a Lean keyword). -/
structure C2State where
  inst : Nat
  adapter : Nat
  surface : Nat
  device : Nat
  queue : Nat
  config : SurfaceConfiguration
  size : PhysicalSize
  window : Nat
  use_color : Bool
  render_pipeline : Nat
  clear_color : Color
deriving DecidableEq, Repr

open WgpuTut

/-- `State::resize` of challenge-2.rs (lines 299-306): textually identical to
lib.rs. The `Bool` is true exactly when `surface.configure` was called. -/
def C2State.resize (s : C2State) (new_size : PhysicalSize) : C2State × Bool :=
  if new_size.width > 0 && new_size.height > 0 then
    ({ s with
        size := new_size,
        config := { s.config with width := new_size.width, height := new_size.height } },
     true)
  else
    (s, false)

/-- `State::input` of challenge-2.rs (lines 308-330): `CursorMoved` updates
`clear_color` as in lib.rs and returns true; a `KeyboardInput` whose
virtual keycode is `Some(Space)` (any element state) sets
`use_color = (state == Released)` and returns true; everything else returns
false and changes nothing. -/
def C2State.input (s : C2State) (event : WindowEvent) : C2State × Bool :=
  match event with
  | .CursorMoved position =>
      ({ s with clear_color :=
          { r := position.x / (s.size.width : ℚ),
            g := position.y / (s.size.height : ℚ),
            b := 1,
            a := 1 } },
       true)
  | .KeyboardInput { state := st, virtual_keycode := some .Space } =>
      ({ s with use_color := st == ElementState.Released }, true)
  | _ => (s, false)

/-- `State::update` of challenge-2.rs (lines 332-334): an empty body. -/
def C2State.update (s : C2State) : C2State := s

/-- `State::render` of challenge-2.rs (lines 336-394): like lib.rs but with
no bind group, no vertex or index buffer, and a plain `draw(0..3, 0..1)`. -/
def C2State.render (s : C2State) (acquire : Except SurfaceError Nat) :
    C2State × List RenderStep × Except SurfaceError Unit :=
  match acquire with
  | .error e => (s, [RenderStep.acquireSurfaceTexture], .error e)
  | .ok _ =>
      (s,
       [RenderStep.acquireSurfaceTexture,
        RenderStep.createView,
        RenderStep.createCommandEncoder,
        RenderStep.beginRenderPass s.clear_color true,
        RenderStep.setPipeline s.render_pipeline,
        RenderStep.draw 0 3 0 1,
        RenderStep.submit,
        RenderStep.present],
       .ok ())

/-- The `Err` branches of the `RedrawRequested` arm of `run`
(challenge-2.rs lines 79-87): textually identical to lib.rs. -/
def C2State.handleRenderError (s : C2State) (cf : ControlFlow) (e : SurfaceError) :
    C2State × ControlFlow × Bool :=
  match e with
  | .Lost =>
      let r := s.resize s.size
      (r.1, cf, r.2)
  | .OutOfMemory => (s, ControlFlow.Exit, false)
  | _ => (s, cf, false)

end WgpuTutC2

namespace WgpuTut

/-- A concrete, in-sync textured-polygon state used by the witnesses:
800 × 600 window, config agreeing with the size, `num_indices` as stored by
`State::new`. -/
def sampleState : State :=
  { inst := 1, adapter := 2, surface := 3, device := 4, queue := 5,
    config := { usage := 0, format := 0, width := 800, height := 600,
                present_mode := 0, alpha_mode := 0 },
    size := { width := 800, height := 600 },
    window := 6,
    clear_color := Color.BLACK,
    render_pipeline := 7,
    vertex_buffer := 8,
    index_buffer := 9,
    num_indices := new_num_indices,
    diffuse_bind_group := 10,
    diffuse_texture := 11 }

/-- A concrete, in-sync colored-triangle state used by the witnesses and
counterexamples: 800 × 600 window, `use_color = false`. -/
def sampleC2State : WgpuTutC2.C2State :=
  { inst := 1, adapter := 2, surface := 3, device := 4, queue := 5,
    config := { usage := 0, format := 0, width := 800, height := 600,
                present_mode := 0, alpha_mode := 0 },
    size := { width := 800, height := 600 },
    window := 6,
    use_color := false,
    render_pipeline := 7,
    clear_color := Color.BLACK }

end WgpuTut

namespace WgpuTut

/-- Auxiliary: resizing a state to its own stored size is the identity on the
state and reconfigures the surface, provided config already agrees with size
and both dimensions are positive. -/
theorem State.resize_self_lib (s : State) (h1 : s.config.width = s.size.width)
    (h2 : s.config.height = s.size.height) (h3 : 0 < s.size.width)
    (h4 : 0 < s.size.height) : s.resize s.size = (s, true) := by
  have hc : (decide (s.size.width > 0) && decide (s.size.height > 0)) = true := by
    simp [h3, h4]
  simp only [State.resize, hc]
  rw [if_pos trivial, ← h1, ← h2]

/-- Auxiliary: the colored-triangle variant of `resize_self`. -/
theorem WgpuTutC2.C2State.resize_self_c2 (t : WgpuTutC2.C2State)
    (h1 : t.config.width = t.size.width) (h2 : t.config.height = t.size.height)
    (h3 : 0 < t.size.width) (h4 : 0 < t.size.height) :
    t.resize t.size = (t, true) := by
  have hc : (decide (t.size.width > 0) && decide (t.size.height > 0)) = true := by
    simp [h3, h4]
  simp only [WgpuTutC2.C2State.resize, hc]
  rw [if_pos trivial, ← h1, ← h2]

end WgpuTut

namespace WgpuTut

/-- C1: For every CursorMoved window event at physical position (x, y),
State::input — in both the textured-polygon variant (lib.rs) and the
colored-triangle variant (challenge-2.rs) — sets clear_color to
Color { r: x / size.width, g: y / size.height, b: 1.0, a: 1.0 } (x, y and
the stored size as f64, here exact rationals) and returns true, leaving
every other field of State unchanged. -/
theorem c1_cursor_moved_sets_clear_color :
    ∀ (s : State) (t : WgpuTutC2.C2State) (p : PhysicalPosition),
      s.input (WindowEvent.CursorMoved p) =
        ({ s with clear_color :=
            { r := p.x / (s.size.width : ℚ),
              g := p.y / (s.size.height : ℚ),
              b := 1, a := 1 } }, true) ∧
      t.input (WindowEvent.CursorMoved p) =
        ({ t with clear_color :=
            { r := p.x / (t.size.width : ℚ),
              g := p.y / (t.size.height : ℚ),
              b := 1, a := 1 } }, true) :=
  fun _ _ _ => ⟨rfl, rfl⟩

/-- C2 counterexample: the Space key does not flip use_color. From the
concrete state with use_color = false, a pressed-Space KeyboardInput event
leaves use_color = false, while flipping would give true. -/
theorem c2_space_toggle_counterexample :
    ((sampleC2State.input (WindowEvent.KeyboardInput
        { state := ElementState.Pressed,
          virtual_keycode := some VirtualKeyCode.Space })).1.use_color
      = !sampleC2State.use_color) = False :=
  eq_false (by decide)

/-- C2 (amended): for every KeyboardInput window event whose virtual keycode
is Space, State::input of the colored-triangle variant sets use_color to
true exactly when the key's element state is Released (false when Pressed) —
it does not flip the previous value — and returns true, leaving every other
field unchanged. -/
theorem c2_space_sets_use_color_to_released :
    ∀ (t : WgpuTutC2.C2State) (st : ElementState),
      t.input (WindowEvent.KeyboardInput
          { state := st, virtual_keycode := some VirtualKeyCode.Space }) =
        ({ t with use_color := st == ElementState.Released }, true) :=
  fun _ _ => rfl

/-- C3: Texture::from_bytes is an unimplemented stub: it takes no inputs,
performs nothing and returns unit — in particular its result type is not the
Texture type, so it constructs no Texture value, even though State::new
(lib.rs line 219) calls it with a device, a queue, the embedded PNG bytes and
a label and unwraps the result into a texture::Texture. -/
theorem c3_from_bytes_is_stub :
    Texture.fromBytes = () ∧ (Unit : Type) ≠ Texture := by
  refine ⟨rfl, fun h => ?_⟩
  have hs : Subsingleton Texture := h ▸ (inferInstance : Subsingleton Unit)
  have he : ({ texture := 0, view := 0, sampler := 0 } : Texture)
      = { texture := 0, view := 0, sampler := 1 } := hs.elim _ _
  exact absurd (congrArg Texture.sampler he) (by decide)

end WgpuTut

namespace WgpuTut

/-- C4 counterexample: on SurfaceError::Lost the event loop performs a
recovery action other than exiting — it reconfigures the surface via
state.resize(state.size) (the surface-configure flag is true) while control
flow is not Exit — refuting "it performs no other recovery action for any
error variant". -/
theorem c4_lost_reconfigures_counterexample :
    (handleRenderError sampleState ControlFlow.Poll SurfaceError.Lost).2.2 = true ∧
    ((handleRenderError sampleState ControlFlow.Poll SurfaceError.Lost).2.1
      = ControlFlow.Exit) = False :=
  ⟨by decide, eq_false (by decide)⟩

/-- C4 (amended): for every error returned by State::render (in both
variants, for a state whose config agrees with its positive stored size),
the event loop exits on OutOfMemory; on Lost it does not exit but recovers by
reconfiguring the surface through resize at the current size, leaving the
state fields unchanged; on every other error (Timeout, Outdated) it only
logs, leaving state and control flow unchanged and touching the surface not
at all. -/
theorem c4_render_error_handling (s : State) (t : WgpuTutC2.C2State) (cf : ControlFlow)
    (h1 : s.config.width = s.size.width) (h2 : s.config.height = s.size.height)
    (h3 : 0 < s.size.width) (h4 : 0 < s.size.height)
    (g1 : t.config.width = t.size.width) (g2 : t.config.height = t.size.height)
    (g3 : 0 < t.size.width) (g4 : 0 < t.size.height) :
    handleRenderError s cf SurfaceError.OutOfMemory = (s, ControlFlow.Exit, false) ∧
    handleRenderError s cf SurfaceError.Lost = (s, cf, true) ∧
    handleRenderError s cf SurfaceError.Timeout = (s, cf, false) ∧
    handleRenderError s cf SurfaceError.Outdated = (s, cf, false) ∧
    t.handleRenderError cf SurfaceError.OutOfMemory = (t, ControlFlow.Exit, false) ∧
    t.handleRenderError cf SurfaceError.Lost = (t, cf, true) ∧
    t.handleRenderError cf SurfaceError.Timeout = (t, cf, false) ∧
    t.handleRenderError cf SurfaceError.Outdated = (t, cf, false) := by
  refine ⟨rfl, ?_, rfl, rfl, rfl, ?_, rfl, rfl⟩
  · show ((s.resize s.size).1, cf, (s.resize s.size).2) = (s, cf, true)
    rw [State.resize_self_lib s h1 h2 h3 h4]
  · show ((t.resize t.size).1, cf, (t.resize t.size).2) = (t, cf, true)
    rw [WgpuTutC2.C2State.resize_self_c2 t g1 g2 g3 g4]

/-- C4 witness: the amended error-handling theorem applied at the concrete
in-sync 800 × 600 states. -/
theorem c4_render_error_handling_witness :
    handleRenderError sampleState ControlFlow.Poll SurfaceError.OutOfMemory
      = (sampleState, ControlFlow.Exit, false) ∧
    handleRenderError sampleState ControlFlow.Poll SurfaceError.Lost
      = (sampleState, ControlFlow.Poll, true) ∧
    handleRenderError sampleState ControlFlow.Poll SurfaceError.Timeout
      = (sampleState, ControlFlow.Poll, false) ∧
    handleRenderError sampleState ControlFlow.Poll SurfaceError.Outdated
      = (sampleState, ControlFlow.Poll, false) ∧
    WgpuTutC2.C2State.handleRenderError sampleC2State ControlFlow.Poll SurfaceError.OutOfMemory
      = (sampleC2State, ControlFlow.Exit, false) ∧
    WgpuTutC2.C2State.handleRenderError sampleC2State ControlFlow.Poll SurfaceError.Lost
      = (sampleC2State, ControlFlow.Poll, true) ∧
    WgpuTutC2.C2State.handleRenderError sampleC2State ControlFlow.Poll SurfaceError.Timeout
      = (sampleC2State, ControlFlow.Poll, false) ∧
    WgpuTutC2.C2State.handleRenderError sampleC2State ControlFlow.Poll SurfaceError.Outdated
      = (sampleC2State, ControlFlow.Poll, false) :=
  c4_render_error_handling sampleState sampleC2State ControlFlow.Poll
    rfl rfl (by decide) (by decide) rfl rfl (by decide) (by decide)

/-- C5: for every Resized or ScaleFactorChanged window event with positive
width and height, the event loop's dispatch calls State::resize, which
updates size and config.width/config.height and calls surface.configure —
the re-creation of the surface's buffer resources for the new size, the
program's only multi-frame resource lifecycle (the configure flag is true). -/
theorem c5_resize_reconfigures_surface (s : State) (cf : ControlFlow)
    (ps : PhysicalSize) (h1 : 0 < ps.width) (h2 : 0 < ps.height) :
    handleWindowEvent s cf (WindowEvent.Resized ps) =
      ({ s with
          size := ps,
          config := { s.config with width := ps.width, height := ps.height } }, cf, true) ∧
    handleWindowEvent s cf (WindowEvent.ScaleFactorChanged ps) =
      ({ s with
          size := ps,
          config := { s.config with width := ps.width, height := ps.height } }, cf, true) := by
  constructor <;>
    simp [handleWindowEvent, State.input, State.resize, h1, h2]

/-- C5 witness: a resize of the 800 × 600 state to 1024 × 768 through the
event loop updates size and config and reconfigures the surface. -/
theorem c5_resize_reconfigures_surface_witness :
    handleWindowEvent sampleState ControlFlow.Poll
        (WindowEvent.Resized { width := 1024, height := 768 }) =
      ({ sampleState with
          size := { width := 1024, height := 768 },
          config := { sampleState.config with width := 1024, height := 768 } },
       ControlFlow.Poll, true) ∧
    handleWindowEvent sampleState ControlFlow.Poll
        (WindowEvent.ScaleFactorChanged { width := 1024, height := 768 }) =
      ({ sampleState with
          size := { width := 1024, height := 768 },
          config := { sampleState.config with width := 1024, height := 768 } },
       ControlFlow.Poll, true) :=
  c5_resize_reconfigures_surface sampleState ControlFlow.Poll
    { width := 1024, height := 768 } (by decide) (by decide)

end WgpuTut

namespace WgpuTut

/-- C6: on each frame a successful State::render (both variants) performs,
in order: acquire the current surface texture, create the view and encoder,
begin a render pass that clears to the current clear_color (load op Clear,
store enabled), set up and issue the draw of the geometry, submit the
command buffer and present; when acquisition fails the error is propagated
with no further step; and the result is Ok(()) exactly when the surface
texture was acquired successfully. -/
theorem c6_render_clears_draws_presents :
    ∀ (s : State) (t : WgpuTutC2.C2State) (tex : Nat) (e : SurfaceError),
      s.render (Except.ok tex) =
        (s,
         [RenderStep.acquireSurfaceTexture,
          RenderStep.createView,
          RenderStep.createCommandEncoder,
          RenderStep.beginRenderPass s.clear_color true,
          RenderStep.setPipeline s.render_pipeline,
          RenderStep.setBindGroup 0 s.diffuse_bind_group,
          RenderStep.setVertexBuffer 0 s.vertex_buffer,
          RenderStep.setIndexBuffer s.index_buffer IndexFormat.Uint16,
          RenderStep.drawIndexed 0 s.num_indices 0 0 1,
          RenderStep.submit,
          RenderStep.present],
         Except.ok ()) ∧
      s.render (Except.error e) = (s, [RenderStep.acquireSurfaceTexture], Except.error e) ∧
      t.render (Except.ok tex) =
        (t,
         [RenderStep.acquireSurfaceTexture,
          RenderStep.createView,
          RenderStep.createCommandEncoder,
          RenderStep.beginRenderPass t.clear_color true,
          RenderStep.setPipeline t.render_pipeline,
          RenderStep.draw 0 3 0 1,
          RenderStep.submit,
          RenderStep.present],
         Except.ok ()) ∧
      t.render (Except.error e) = (t, [RenderStep.acquireSurfaceTexture], Except.error e) ∧
      (∀ acquire : Except SurfaceError Nat,
        ((s.render acquire).2.2 = Except.ok ()) ↔ ∃ u, acquire = Except.ok u) ∧
      (∀ acquire : Except SurfaceError Nat,
        ((t.render acquire).2.2 = Except.ok ()) ↔ ∃ u, acquire = Except.ok u) :=
  fun s t tex e =>
    ⟨rfl, rfl, rfl, rfl,
     fun acquire => by cases acquire <;> simp [State.render],
     fun acquire => by cases acquire <;> simp [WgpuTutC2.C2State.render]⟩

/-- C7: every successful State::render of the textured-polygon variant (for
a state carrying the num_indices that State::new stored) issues exactly one
draw call, the indexed draw over index range 0..9 with base vertex 0 and one
instance (instance range 0..1), where 9 is the length of the static INDICES
array (three triangles over the five static VERTICES), and it does so after
setting the pipeline, bind group 0, vertex-buffer slot 0 and the Uint16
index buffer. -/
theorem c7_draws_requested_indexed_geometry (s : State) (tex : Nat)
    (h : s.num_indices = new_num_indices) :
    INDICES.length = 9 ∧ VERTICES.length = 5 ∧ new_num_indices = 9 ∧
    (s.render (Except.ok tex)).2.1.filter RenderStep.isDrawCall =
      [RenderStep.drawIndexed 0 9 0 0 1] ∧
    (s.render (Except.ok tex)).2.1 =
      [RenderStep.acquireSurfaceTexture,
       RenderStep.createView,
       RenderStep.createCommandEncoder,
       RenderStep.beginRenderPass s.clear_color true,
       RenderStep.setPipeline s.render_pipeline,
       RenderStep.setBindGroup 0 s.diffuse_bind_group,
       RenderStep.setVertexBuffer 0 s.vertex_buffer,
       RenderStep.setIndexBuffer s.index_buffer IndexFormat.Uint16,
       RenderStep.drawIndexed 0 9 0 0 1,
       RenderStep.submit,
       RenderStep.present] := by
  refine ⟨rfl, rfl, rfl, ?_, ?_⟩ <;>
    simp [State.render, RenderStep.isDrawCall, h, new_num_indices, INDICES]

/-- C7 witness: the draw-call property evaluated at the concrete 800 × 600
state, whose num_indices is the value State::new stores. -/
theorem c7_draws_requested_indexed_geometry_witness :
    (sampleState.render (Except.ok 0)).2.1.filter RenderStep.isDrawCall =
      [RenderStep.drawIndexed 0 9 0 0 1] :=
  (c7_draws_requested_indexed_geometry sampleState 0 rfl).2.2.2.1

/-- C8: the colored-triangle variant (challenge-2.rs) and the
textured-polygon variant (lib.rs) are near-duplicates: State::resize and the
CursorMoved branch of State::input compute identical state updates — started
from the same stored size and the same config dimensions, every resize input
yields the same new size, the same config width and height, and the same
configure effect, and every cursor position yields the same clear_color, and
both consume the event. -/
theorem c8_variants_compute_identical_updates (s : State) (t : WgpuTutC2.C2State)
    (hsz : s.size = t.size) (hw : s.config.width = t.config.width)
    (hh : s.config.height = t.config.height)
    (ns : PhysicalSize) (p : PhysicalPosition) :
    (s.resize ns).1.size = (t.resize ns).1.size ∧
    (s.resize ns).1.config.width = (t.resize ns).1.config.width ∧
    (s.resize ns).1.config.height = (t.resize ns).1.config.height ∧
    (s.resize ns).2 = (t.resize ns).2 ∧
    (s.input (WindowEvent.CursorMoved p)).1.clear_color =
      (t.input (WindowEvent.CursorMoved p)).1.clear_color ∧
    (s.input (WindowEvent.CursorMoved p)).2 =
      (t.input (WindowEvent.CursorMoved p)).2 := by
  by_cases hc : (ns.width > 0 && ns.height > 0) = true <;>
    simp [State.resize, WgpuTutC2.C2State.resize, State.input,
      WgpuTutC2.C2State.input, hc, hsz, hw, hh]

/-- C8 witness: the equivalence evaluated at the concrete 800 × 600 states of
the two variants, a resize to 1024 × 768 and a cursor move to (100, 200). -/
theorem c8_variants_compute_identical_updates_witness :
    (sampleState.resize { width := 1024, height := 768 }).1.size =
      (sampleC2State.resize { width := 1024, height := 768 }).1.size ∧
    (sampleState.input (WindowEvent.CursorMoved { x := 100, y := 200 })).1.clear_color =
      (sampleC2State.input (WindowEvent.CursorMoved { x := 100, y := 200 })).1.clear_color :=
  ⟨(c8_variants_compute_identical_updates sampleState sampleC2State rfl rfl rfl
      { width := 1024, height := 768 } { x := 100, y := 200 }).1,
   (c8_variants_compute_identical_updates sampleState sampleC2State rfl rfl rfl
      { width := 1024, height := 768 } { x := 100, y := 200 }).2.2.2.2.1⟩

/-- C9: for every resize request whose new size has width = 0 or height = 0,
State::resize of both variants leaves the entire State unchanged (size,
config.width and config.height keep their previous values) and does not
reconfigure the surface. -/
theorem c9_resize_zero_is_noop (s : State) (t : WgpuTutC2.C2State)
    (ns : PhysicalSize) (h : ns.width = 0 ∨ ns.height = 0) :
    s.resize ns = (s, false) ∧ t.resize ns = (t, false) := by
  rcases h with h | h <;>
    simp [State.resize, WgpuTutC2.C2State.resize, h]

/-- C9 witness: a resize request of width 0 (and one of height 0) leaves the
concrete 800 × 600 states of both variants unchanged. -/
theorem c9_resize_zero_is_noop_witness :
    (sampleState.resize { width := 0, height := 600 } = (sampleState, false) ∧
      sampleC2State.resize { width := 0, height := 600 } = (sampleC2State, false)) ∧
    (sampleState.resize { width := 800, height := 0 } = (sampleState, false) ∧
      sampleC2State.resize { width := 800, height := 0 } = (sampleC2State, false)) :=
  ⟨c9_resize_zero_is_noop sampleState sampleC2State
      { width := 0, height := 600 } (Or.inl rfl),
   c9_resize_zero_is_noop sampleState sampleC2State
      { width := 800, height := 0 } (Or.inr rfl)⟩

/-- C10: in the colored-triangle variant the rendered output is independent
of the use_color mode flag: for any two states that differ only in
use_color, State::update is the identity on both, State::render issues the
same command trace with the same result for every surface-acquisition
outcome, and both renders leave their state exactly as it was (the same —
empty — state change). -/
theorem c10_use_color_does_not_affect_render :
    ∀ (t : WgpuTutC2.C2State) (b1 b2 : Bool) (acquire : Except SurfaceError Nat),
      WgpuTutC2.C2State.update { t with use_color := b1 } = { t with use_color := b1 } ∧
      (WgpuTutC2.C2State.render { t with use_color := b1 } acquire).2 =
        (WgpuTutC2.C2State.render { t with use_color := b2 } acquire).2 ∧
      (WgpuTutC2.C2State.render { t with use_color := b1 } acquire).1 =
        { t with use_color := b1 } ∧
      (WgpuTutC2.C2State.render { t with use_color := b2 } acquire).1 =
        { t with use_color := b2 } :=
  fun t b1 b2 acquire =>
    ⟨rfl,
     by cases acquire <;> rfl,
     by cases acquire <;> rfl,
     by cases acquire <;> rfl⟩

end WgpuTut
